import Mathlib

/-!
Shallow embedding of the conversational core of the LLM phone feedback
agent (survey progression over WhatsApp webhooks, response interpretation,
channel disambiguation, RAG retrieval with a token budget, the background
sentiment pipeline, and the token budget guard), translated from
src/server/app/api/nexmo_webhooks.py,
src/server/app/services/llm/orchestrator.py,
src/server/app/services/rag/enhanced_retriever.py and
src/server/app/services/optimization/token_optimizer.py.

Text is modelled as List Char so that every operation is executable and
kernel-reducible.  External collaborators (the vector store and the
language model) are passed in as function parameters, matching their role
as black boxes behind narrow interfaces.
-/

/-- ASCII lowercasing of one character; the relevant inputs of the webhook
code are ASCII, where Python str.lower agrees with this map. -/
def lowerChar (c : Char) : Char :=
  if 'A' ≤ c ∧ c ≤ 'Z' then Char.ofNat (c.toNat + 32) else c

/-- Python str.lower on ASCII text. -/
def pyLower (s : List Char) : List Char := s.map lowerChar

/-- The whitespace characters stripped by Python str.strip(). -/
def isPyWhitespace (c : Char) : Bool :=
  c = ' ' ∨ c = '\t' ∨ c = '\n' ∨ c = '\r' ∨ c = '\x0b' ∨ c = '\x0c'

/-- Python str.strip(): drop leading and trailing whitespace. -/
def pyStrip (s : List Char) : List Char :=
  ((s.dropWhile isPyWhitespace).reverse.dropWhile isPyWhitespace).reverse

/-- Helper for substring search: does the pattern occur in the list? -/
def containsSub {α : Type} [DecidableEq α] : List α → List α → Bool
  | _, [] => false
  | pat, b :: tl => if pat.isPrefixOf (b :: tl) then true else containsSub pat tl

/-- Python membership test for strings: pat in hay (the empty pattern is in
every string). -/
def pyIn (pat hay : List Char) : Bool :=
  if pat = [] then true else containsSub pat hay

/-- Counting helper for Python str.split() with no separator: walks the
text tracking whether the previous character was part of a word. -/
def countWordsAux : List Char → Bool → Nat
  | [], _ => 0
  | c :: rest, inWord =>
    if isPyWhitespace c then countWordsAux rest false
    else (if inWord then 0 else 1) + countWordsAux rest true

/-- Number of whitespace-separated words, as len(text.split()) computes. -/
def pyWordCount (s : List Char) : Nat := countWordsAux s false

/-- Numeric value of a digit run. -/
def digitsVal (ds : List Char) : Nat :=
  ds.foldl (fun a c => a * 10 + (c.toNat - 48)) 0

/-- Python int(s): optional surrounding whitespace, an optional sign, then
one or more digits (digit-group underscores, which no caller produces, are
not modelled).  Any other shape raises ValueError, i.e. yields none. -/
def parsePyInt (s : List Char) : Option Int :=
  match pyStrip s with
  | [] => none
  | c :: rest =>
    let signed : Bool × List Char :=
      if c = '-' then (true, rest)
      else if c = '+' then (false, rest) else (false, c :: rest)
    match signed with
    | (neg, digits) =>
      if digits ≠ [] ∧ digits.all Char.isDigit then
        some (if neg then -(digitsVal digits : Int) else (digitsVal digits : Int))
      else none

/-- Value of an optional-sign decimal literal with integer part ip and
fractional digits fp; integer-valued literals stay in the Int image so
that concrete runs reduce without rational normalization. -/
def ratOfParts (neg : Bool) (ip fp : List Char) : Rat :=
  let signedInt : Int → Int := fun n => if neg then -n else n
  if fp = [] then ((signedInt (digitsVal ip) : Int) : Rat)
  else ((signedInt ((digitsVal ip) * 10 ^ fp.length + digitsVal fp) : Int) : Rat) /
    ((10 : Rat) ^ fp.length)

/-- Python float(s) restricted to plain decimal literals (optional sign,
digits, optional fractional part) — the shapes the surveys ever feed it;
exponents, inf and nan are not modelled.  Other inputs raise ValueError,
i.e. yield none. -/
def parsePyFloat (s : List Char) : Option Rat :=
  match pyStrip s with
  | [] => none
  | c :: rest =>
    let signed : Bool × List Char :=
      if c = '-' then (true, rest)
      else if c = '+' then (false, rest) else (false, c :: rest)
    match signed with
    | (neg, body) =>
      let ip := body.takeWhile Char.isDigit
      let rest1 := body.drop ip.length
      match rest1 with
      | [] => if ip ≠ [] then some (ratOfParts neg ip []) else none
      | '.' :: rest2 =>
        if rest2.all Char.isDigit ∧ (ip ≠ [] ∨ rest2 ≠ []) then
          some (ratOfParts neg ip rest2)
        else none
      | _ => none

/-- Maximal-munch continuation of the number regex once positioned on a
digit: digits, then an optional dot with further digits. -/
def numTail (l : List Char) : List Char :=
  let ds := l.takeWhile Char.isDigit
  match l.drop ds.length with
  | '.' :: r2 => ds ++ '.' :: r2.takeWhile Char.isDigit
  | _ => ds

/-- First match of the Python regex used by process_survey_answer for
numeric answers, scanning left to right. -/
def findNumberToken : List Char → Option (List Char)
  | [] => none
  | c :: rest =>
    if c.isDigit then some (numTail (c :: rest))
    else if c = '-' then
      match rest with
      | [] => none
      | d :: _ => if d.isDigit then some ('-' :: numTail rest) else findNumberToken rest
    else findNumberToken rest

/-- Value of a well-formed regex match (float(numbers[0]) in the code). -/
def ratOfToken (tok : List Char) : Rat := (parsePyFloat tok).getD 0

/-- One survey question as stored in the surveys collection.  The two
optional type keys mirror the code reading question_type with a fallback
to type; numeric bounds are optional exactly like the dict lookups. -/
structure Question where
  qid : List Char
  questionTypeKey : Option (List Char) := none
  typeKey : Option (List Char) := none
  options : List (List Char) := []
  scaleMin : Option Rat := none
  scaleMax : Option Rat := none
  minValue : Option Rat := none
  maxValue : Option Rat := none
  maxLength : Option Nat := none
  followUpLogic : List (List Char × List Char) := []
deriving Repr, DecidableEq

/-- question.get with Python or-fallback to question.get with a
default of text, as process_survey_answer resolves the type. -/
def questionTypeOf (q : Question) : List Char :=
  let alt := q.typeKey.getD (("text").data)
  match q.questionTypeKey with
  | some t => if t = [] then alt else t
  | none => alt

/-- Structured answer: the tagged union process_survey_answer returns,
always retaining the raw response. -/
inductive Answer where
  | choice (index : Nat) (choiceText : List Char) (raw : List Char)
  | boolAns (value : Bool) (raw : List Char)
  | numAns (value : Rat) (raw : List Char)
  | textAns (value : List Char) (raw : List Char) (truncated : Bool)
deriving Repr, DecidableEq

/-- The option-text matching loop of the multiple_choice branch: first
index whose option matches the response as a case-insensitive substring in
either direction. -/
def mcFindAux (resp : List Char) : List (List Char) → Nat → Option (Nat × List Char)
  | [], _ => none
  | o :: rest, i =>
    if pyIn (pyLower resp) (pyLower o) || pyIn (pyLower o) (pyLower resp) then some (i, o)
    else mcFindAux resp rest (i + 1)

/-- process_survey_answer (src/server/app/api/nexmo_webhooks.py): parse a
raw response according to the question type, or return none (Invalid). -/
def processSurveyAnswer (q : Question) (responseText : List Char) : Option Answer :=
  let qt := questionTypeOf q
  if qt = ("multiple_choice").data then
    let textMatch : Option Answer :=
      match mcFindAux responseText q.options 0 with
      | some (i, o) => some (.choice i o responseText)
      | none => none
    match parsePyInt responseText with
    | some n =>
      if 1 ≤ n ∧ n ≤ (q.options.length : Int) then
        some (.choice (n.toNat - 1) (q.options.getD (n.toNat - 1) []) responseText)
      else textMatch
    | none => textMatch
  else if qt = ("yes_no").data ∨ qt = ("boolean").data then
    let rl := pyLower responseText
    if rl ∈ [("yes").data, ("y").data, ("si").data, ("oui").data, ("1").data, ("true").data] then
      some (.boolAns true responseText)
    else if rl ∈ [("no").data, ("n").data, ("non").data, ("0").data, ("false").data] then
      some (.boolAns false responseText)
    else none
  else if qt = ("numeric").data ∨ qt = ("number").data ∨ qt = ("rating").data then
    match findNumberToken responseText with
    | some tok =>
      let v := ratOfToken tok
      if qt = ("rating").data then
        if q.scaleMin.getD 1 ≤ v ∧ v ≤ q.scaleMax.getD 10 then some (.numAns v responseText)
        else none
      else
        match q.minValue with
        | some lo => if v < lo then none else
          match q.maxValue with
          | some hi => if v > hi then none else some (.numAns v responseText)
          | none => some (.numAns v responseText)
        | none =>
          match q.maxValue with
          | some hi => if v > hi then none else some (.numAns v responseText)
          | none => some (.numAns v responseText)
    | none => none
  else if qt = ("scale").data then
    match parsePyFloat (pyStrip responseText) with
    | some v =>
      if q.scaleMin.getD 1 ≤ v ∧ v ≤ q.scaleMax.getD 5 then some (.numAns v responseText)
      else none
    | none => none
  else
    if pyStrip responseText ≠ [] then
      match q.maxLength with
      | some m =>
        if m ≠ 0 ∧ responseText.length > m then
          some (.textAns (responseText.take m) responseText true)
        else some (.textAns (pyStrip responseText) responseText false)
      | none => some (.textAns (pyStrip responseText) responseText false)
    else none

/-- Association-list write with overwrite, the semantics of a Python dict
assignment (responses and sentiment_scores are dicts keyed by question id). -/
def assocPut {α β : Type} [DecidableEq α] : List (α × β) → α → β → List (α × β)
  | [], k, v => [(k, v)]
  | (k0, v0) :: rest, k, v =>
    if k0 = k then (k0, v) :: rest else (k0, v0) :: assocPut rest k v

/-- Association-list read (dict lookup returning an Option). -/
def assocGet {α β : Type} [DecidableEq α] : List (α × β) → α → Option β
  | [], _ => none
  | (k0, v0) :: rest, k => if k0 = k then some v0 else assocGet rest k

/-- The mutable fields of a survey_results document that
handle_survey_response reads and writes: the metadata question pointer,
the responses dict, the completion flag, and the completion timing. -/
structure SessionState where
  currentQuestionIndex : Nat
  responses : List (List Char × Answer) := []
  completed : Bool := false
  endTime : Option Nat := none
  durationSeconds : Option Nat := none
deriving Repr, DecidableEq

/-- The outward effect of one webhook invocation on the channel. -/
inductive StepEffect where
  /-- The interpreter rejected the response: the invalid-response message
  with get_question_help_text of the current question is sent and nothing
  is stored. -/
  | invalidHelp
  /-- The next question (at this index) is sent. -/
  | nextQuestion (index : Nat)
  /-- The survey completed: the outro message is sent and the background
  sentiment task is spawned. -/
  | completedOutro
  /-- The question index was out of range; the handler returns without
  touching the session. -/
  | ignored
deriving Repr, DecidableEq

/-- The survey-path core of handle_survey_response
(src/server/app/api/nexmo_webhooks.py): given the survey's questions and
the active session, process one inbound text.  Times are in seconds;
startTime is the session's start_time and now the completion clock.  The
next question index is always current + 1; on completion the update sets
completed, end_time and duration_seconds and (like complete_survey) leaves
the stored question index untouched. -/
def handleSurveyResponseStep (questions : List Question) (st : SessionState)
    (startTime now : Nat) (responseText : List Char) : SessionState × StepEffect :=
  match questions[st.currentQuestionIndex]? with
  | none => (st, .ignored)
  | some q =>
    match processSurveyAnswer q (pyStrip responseText) with
    | none => (st, .invalidHelp)
    | some ans =>
      let responses2 := assocPut st.responses q.qid ans
      let nextIndex := st.currentQuestionIndex + 1
      if nextIndex ≥ questions.length then
        ({ st with responses := responses2, completed := true,
                   endTime := some now, durationSeconds := some (now - startTime) },
         .completedOutro)
      else
        ({ st with responses := responses2, currentQuestionIndex := nextIndex },
         .nextQuestion nextIndex)

/-- Branching-condition derivation of LLMOrchestrator.analyze_response
(src/server/app/services/llm/orchestrator.py): numeric answers map to the
1-2 / 3 / 4-5 buckets via int(response.strip()), yes_no answers to yes/no,
and multiple_choice answers to an exact lowercase option match with the
model-selected option as fallback.  Other question types never set the
condition key. -/
def analyzeResponseCondition (questionType : List Char) (options : List (List Char))
    (selectedOption : Option (List Char)) (response : List Char) : Option (List Char) :=
  if questionType = ("numeric").data then
    match parsePyInt (pyStrip response) with
    | some r =>
      if r ≤ 2 then some (("1-2").data)
      else if r = 3 then some (("3").data)
      else some (("4-5").data)
    | none => none
  else if questionType = ("yes_no").data then
    let rl := pyStrip (pyLower response)
    if rl ∈ [("yes").data, ("1").data, ("y").data] then some (("yes").data)
    else if rl ∈ [("no").data, ("2").data, ("n").data] then some (("no").data)
    else none
  else if questionType = ("multiple_choice").data then
    match options.find? (fun o => pyStrip (pyLower response) = pyLower o) with
    | some o => some o
    | none => selectedOption
  else none

/-- How an inbound text is routed by the webhook. -/
inductive MessageClass where
  | knowledgeQuery
  | surveyAnswer (questionIndex : Nat)
  | unclassified
deriving Repr, DecidableEq

/-- The interrogative-marker list of handle_survey_response. -/
def questionIndicators : List (List Char) :=
  [("what").data, ("how").data, ("when").data, ("where").data, ("why").data,
   ("which").data, ("who").data, ("can").data, ("could").data, ("would").data,
   ("should").data, ("is").data, ("are").data, ("does").data, ("do").data,
   ("?").data]

/-- The question-likeness heuristic of handle_survey_response: an
indicator occurs as a substring of the lowercased stripped text, or the
word count exceeds 5, or the text contains a question mark. -/
def looksLikeQuestion (responseText : List Char) : Bool :=
  let rl := pyStrip (pyLower responseText)
  questionIndicators.any (fun ind => pyIn ind rl)
    || decide (pyWordCount responseText > 5)
    || pyIn (("?").data) responseText

/-- The routing decision of nexmo_inbound_webhook, combining
handle_survey_response (which declines knowledge-question-looking texts
when a knowledge-base call is at most 30 minutes old, declines when no
active incomplete session exists, and declines sessions older than 2 hours
when such a knowledge-base call exists) with the fallback to
handle_knowledge_base_query (which requires a knowledge-base call at most
24 hours old).  kbCallAgeMinutes is the age of the contact's most recent
knowledge-base-only inquiry call, activeSession the question index and age
in minutes of the most recent incomplete survey session;  database lookups
are assumed consistent (the survey document exists and the stored index is
in range). -/
def classifyInbound (kbCallAgeMinutes : Option Nat) (responseText : List Char)
    (activeSession : Option (Nat × Nat)) : MessageClass :=
  let recentKb30 := match kbCallAgeMinutes with
    | some a => decide (a ≤ 30)
    | none => false
  let kb24 := match kbCallAgeMinutes with
    | some a => decide (a ≤ 1440)
    | none => false
  if recentKb30 && looksLikeQuestion responseText then
    if kb24 then .knowledgeQuery else .unclassified
  else
    match activeSession with
    | none => if kb24 then .knowledgeQuery else .unclassified
    | some (idx, ageMinutes) =>
      if decide (ageMinutes > 120) && recentKb30 then
        if kb24 then .knowledgeQuery else .unclassified
      else .surveyAnswer idx

/-- Token estimate of EnhancedRAGRetriever._count_tokens: max(1, len // 4). -/
def countTokens (content : List Char) : Nat := max 1 (content.length / 4)

/-- One vector-search hit after _search_document_collections tagged it
with its source document (content normalized from the text field). -/
structure RagDoc where
  content : List Char
  documentName : List Char := []
  score : Rat := 0
  relevanceScore : Rat := 0
  compressed : Bool := false
deriving Repr, DecidableEq

/-- The greedy packing loop of _optimize_for_tokens
(src/server/app/services/rag/enhanced_retriever.py), with the LLM
summarization call _compress_document passed in as the compress parameter
(none models a failed call).  currentTokens is the running token count;
the first hit that would overflow is compressed into the remaining
allowance when that allowance exceeds 100 tokens, and the loop then stops,
dropping all later hits. -/
def optimizeForTokensAux (compress : List Char → Nat → Option (List Char))
    (maxTokens : Nat) : List RagDoc → Nat → List RagDoc
  | [], _ => []
  | d :: rest, currentTokens =>
    let docTokens := countTokens d.content
    if currentTokens + docTokens ≤ maxTokens then
      d :: optimizeForTokensAux compress maxTokens rest (currentTokens + docTokens)
    else
      let remainingTokens := maxTokens - currentTokens
      if remainingTokens > 100 then
        match compress d.content remainingTokens with
        | some c => [{ d with content := c, compressed := true }]
        | none => []
      else []

/-- _optimize_for_tokens on a ranked hit list (the document list it
returns; the ratio and savings statistics are not needed by any claim). -/
def optimizeForTokens (compress : List Char → Nat → Option (List Char))
    (docs : List RagDoc) (maxTokens : Nat) : List RagDoc :=
  optimizeForTokensAux compress maxTokens docs 0

/-- Total estimated tokens over the contents of a packed hit list. -/
def packedTokens (docs : List RagDoc) : Nat :=
  (docs.map (fun d => countTokens d.content)).sum

/-- One document of the documents collection, with the fields
_get_filtered_documents queries. -/
structure DocRecord where
  objectId : List Char
  name : List Char
  ownerId : List Char
  status : List Char
  hasVectorCollection : Bool := true
deriving Repr, DecidableEq

/-- Hex-character test for ObjectId validity. -/
def isHexChar (c : Char) : Bool :=
  c.isDigit ∨ ('a' ≤ c ∧ c ≤ 'f') ∨ ('A' ≤ c ∧ c ≤ 'F')

/-- Whether bson ObjectId(s) succeeds: a 24-character hex string. -/
def isValidObjectId (s : List Char) : Bool :=
  decide (s.length = 24) && s.all isHexChar

/-- The owner-and-status base query of _get_filtered_documents: owner_id
matches, status is processed and a vector collection name exists. -/
def eligibleDoc (userId : List Char) (d : DocRecord) : Bool :=
  d.ownerId = userId ∧ d.status = ("processed").data ∧ d.hasVectorCollection

/-- _get_filtered_documents (src/server/app/services/rag/enhanced_retriever.py)
as a filter over the documents collection: a truthy knowledge_base_id
outside the general/default/none sentinels narrows the query to one
document by _id when it parses as an ObjectId, otherwise by name.  The
document_filters of the only caller duplicate the base owner and status
conditions and are omitted. -/
def getFilteredDocuments (db : List DocRecord) (userId : List Char)
    (knowledgeBaseId : Option (List Char)) : List DocRecord :=
  match knowledgeBaseId with
  | some k =>
    if k ≠ [] ∧ k ∉ [("general").data, ("default").data, ("none").data] then
      if isValidObjectId k then db.filter (fun d => eligibleDoc userId d ∧ d.objectId = k)
      else db.filter (fun d => eligibleDoc userId d ∧ d.name = k)
    else db.filter (eligibleDoc userId)
  | none => db.filter (eligibleDoc userId)

/-- _deduplicate_documents: keep the first hit for each key, where the key
is the lowercased stripped first 100 characters of the content. -/
def dedupKey (d : RagDoc) : List Char := pyStrip (pyLower (d.content.take 100))

def deduplicateDocs : List RagDoc → List (List Char) → List RagDoc
  | [], _ => []
  | d :: rest, seen =>
    if dedupKey d ∈ seen then deduplicateDocs rest seen
    else d :: deduplicateDocs rest (dedupKey d :: seen)

/-- Helper for Python str.split() with no separator: accumulate the
current word (reversed) and cut at whitespace runs. -/
def splitWsAux : List Char → List Char → List (List Char)
  | [], cur => if cur = [] then [] else [cur.reverse]
  | c :: rest, cur =>
    if isPyWhitespace c then
      if cur = [] then splitWsAux rest [] else cur.reverse :: splitWsAux rest []
    else splitWsAux rest (c :: cur)

/-- Python str.split() with no separator: maximal non-whitespace runs. -/
def pyWords (s : List Char) : List (List Char) := splitWsAux s []

/-- _rank_by_relevance keyword-overlap score: the overlap of the word sets
of the lowercased query and content over the query word count (at least 1). -/
def relevanceScoreOf (query content : List Char) : Rat :=
  let qw := (pyWords (pyLower query)).eraseDups
  let dw := (pyWords (pyLower content)).eraseDups
  ((qw.filter (fun w => w ∈ dw)).length : Rat) / ((max qw.length 1 : Nat) : Rat)

/-- _rank_by_relevance: score every hit, then sort descending (Python
sorted is stable; mergeSort keeps that). -/
def rankByRelevance (docs : List RagDoc) (query : List Char) : List RagDoc :=
  ((docs.map (fun d => { d with relevanceScore := relevanceScoreOf query d.content })).mergeSort
    (fun a b => a.relevanceScore ≥ b.relevanceScore))

/-- Decimal digits of a natural number via a structural fuel argument so
that concrete runs reduce in the kernel. -/
def natToCharsAux : Nat → Nat → List Char
  | 0, _ => []
  | fuel + 1, n =>
    if n < 10 then [Char.ofNat (48 + n)]
    else natToCharsAux fuel (n / 10) ++ [Char.ofNat (48 + n % 10)]

def natToChars (n : Nat) : List Char := natToCharsAux (n + 1) n

/-- _format_search_results: one source-annotated block per hit, joined by
blank lines (the two-decimal rendering of the relevance float is omitted
from the header; no claim depends on it). -/
def formatSearchResults (results : List RagDoc) : List Char :=
  if results = [] then []
  else
    (List.intercalate (("\n").data)
      (results.enum.map (fun p =>
        (("### Source ").data) ++ natToChars (p.1 + 1) ++ ((": ").data) ++ p.2.documentName
          ++ (("\n").data) ++ p.2.content ++ (("\n").data))))

/-- RetrievalResult as consumed by the knowledge path: content, distinct
source names, the token estimate of the content, and the packed hits. -/
structure RetrievalResultM where
  content : List Char
  sources : List (List Char)
  tokensUsed : Nat
  documents : List RagDoc := []
deriving Repr, DecidableEq

def emptyRetrievalResult : RetrievalResultM :=
  { content := [], sources := [], tokensUsed := 0 }

/-- retrieve_optimized_context
(src/server/app/services/rag/enhanced_retriever.py): resolve the eligible
documents, search their vector collections (searchHits stands for the
external vector store of _search_document_collections), deduplicate, rank,
pack into the token budget and format.  The conversation-history query
enhancement is the identity here: every caller relevant to the claims
passes an empty history, for which _enhance_query returns the query
unchanged. -/
def retrieveOptimizedContext (searchHits : List DocRecord → List RagDoc)
    (compress : List Char → Nat → Option (List Char)) (db : List DocRecord)
    (userId : List Char) (knowledgeBaseId : Option (List Char))
    (query : List Char) (maxTokens : Nat) : RetrievalResultM :=
  let relevantDocs := getFilteredDocuments db userId knowledgeBaseId
  if relevantDocs = [] then emptyRetrievalResult
  else
    let searchResults := searchHits relevantDocs
    if searchResults = [] then emptyRetrievalResult
    else
      let ranked := rankByRelevance (deduplicateDocs searchResults []) query
      let optimized := optimizeForTokens compress ranked maxTokens
      let formatted := formatSearchResults optimized
      { content := formatted,
        sources := ((optimized.map (fun d => d.documentName)).eraseDups),
        tokensUsed := countTokens formatted,
        documents := optimized }

/-- One entry of the list asyncio.gather(..., return_exceptions=True)
hands to the result loop of analyze_sentiment_background: an exception
raised by a task, the None placeholder substituted for every task after
the 30-second global timeout, or the result dict of
analyze_single_response (which carries question_id, success and score). -/
inductive TaskOutcome where
  | thrown (message : List Char)
  | timedOut
  | ok (questionId : List Char) (success : Bool) (score : Rat)
deriving Repr, DecidableEq

/-- The result loop of analyze_sentiment_background
(src/server/app/api/nexmo_webhooks.py): exceptions and None placeholders
are skipped, results with a truthy question_id contribute their score when
success is set and 0.0 otherwise. -/
def collectScoresAux (acc : List (List Char × Rat)) :
    List TaskOutcome → List (List Char × Rat)
  | [] => acc
  | .thrown _ :: rest => collectScoresAux acc rest
  | .timedOut :: rest => collectScoresAux acc rest
  | .ok qid success score :: rest =>
    if qid = [] then collectScoresAux acc rest
    else collectScoresAux (assocPut acc qid (if success then score else 0)) rest

def ratListSum (l : List Rat) : Rat := l.foldl (fun a b => a + b) 0

/-- The fields analyze_sentiment_background writes to the survey_results
document.  sentimentScores is none when the update does not touch the
scores field (the crash path); failedFlag records whether the update sets
sentiment_analysis_failed to true. -/
structure SentimentUpdate where
  sentimentScores : Option (List (List Char × Rat))
  overallSentiment : Rat
  analysisPending : Bool
  failedFlag : Bool
deriving Repr, DecidableEq

/-- The normal completion path of analyze_sentiment_background: collect
the per-question scores, average them (defaulting to 0.0 when no score was
collected), store the scores, and clear the pending flag.  No branch of
this path writes sentiment_analysis_failed. -/
def analyzeSentimentOutcomes (outcomes : List TaskOutcome) : SentimentUpdate :=
  let scores := collectScoresAux [] outcomes
  let overall : Rat :=
    if scores = [] then 0 else ratListSum (scores.map Prod.snd) / (scores.length : Rat)
  { sentimentScores := some scores, overallSentiment := overall,
    analysisPending := false, failedFlag := false }

/-- The except-branch of analyze_sentiment_background, reached only when
the pipeline itself raises: clear pending, set the failed flag and a
neutral overall sentiment, leaving the scores untouched. -/
def sentimentCrashUpdate : SentimentUpdate :=
  { sentimentScores := none, overallSentiment := 0,
    analysisPending := false, failedFlag := true }

/-- TokenBudget configuration
(src/server/app/services/optimization/token_optimizer.py) with its
defaults; the cost fields play no role in the budget decision. -/
structure TokenBudget where
  dailyLimit : Nat := 50000
  monthlyLimit : Nat := 1000000
  perRequestLimit : Nat := 4000
deriving Repr, DecidableEq

/-- The dict check_budget returns: the verdict, the aggregated usage when
the ledger reads succeeded, and the error string of the except path. -/
structure BudgetCheck where
  withinBudget : Bool
  dailyUsage : Option Nat := none
  monthlyUsage : Option Nat := none
  errorText : Option (List Char) := none
deriving Repr, DecidableEq

/-- TokenOptimizer.check_budget: aggregate today's and this month's
total_tokens for the user from the token_usage ledger and compare against
the limits.  The ledger aggregation (two MongoDB aggregate calls) is
modelled as an Except value: any exception inside the try block lands in
the except branch, which answers within_budget true with only the error
recorded. -/
def checkBudget (budget : TokenBudget) (ledger : Except (List Char) (Nat × Nat))
    (estimatedTokens : Nat) : BudgetCheck :=
  match ledger with
  | .ok (dailyTotal, monthlyTotal) =>
    { withinBudget :=
        decide (dailyTotal + estimatedTokens ≤ budget.dailyLimit) &&
        decide (monthlyTotal + estimatedTokens ≤ budget.monthlyLimit) &&
        decide (estimatedTokens ≤ budget.perRequestLimit),
      dailyUsage := some dailyTotal, monthlyUsage := some monthlyTotal }
  | .error e => { withinBudget := true, errorText := some e }

/-- Folding one inbound answer after another through the webhook handler,
all at the session's start instant (the clock does not influence the
question pointer or the completion flag). -/
def runAnswers (questions : List Question) (startTime : Nat) :
    SessionState → List (List Char) → SessionState
  | st, [] => st
  | st, t :: rest =>
    runAnswers questions startTime
      (handleSurveyResponseStep questions st startTime startTime t).1 rest

/-- The session state a fresh survey_results document starts from. -/
def initialSession : SessionState := { currentQuestionIndex := 0 }

/-- The multiple-choice interpretation rule in the words of the spec: a
1-based numeric index into the options wins, otherwise the first option
matching the input as a case-insensitive substring in either direction,
otherwise Invalid.  Stated separately so it can be compared with
processSurveyAnswer. -/
def interpretMultipleChoiceClaim (options : List (List Char)) (s : List Char) :
    Option Answer :=
  let textMatch : Option Answer :=
    match mcFindAux s options 0 with
    | some (i, o) => some (.choice i o s)
    | none => none
  match parsePyInt s with
  | some n =>
    if 1 ≤ n ∧ n ≤ (options.length : Int) then
      some (.choice (n.toNat - 1) (options.getD (n.toNat - 1) []) s)
    else textMatch
  | none => textMatch

/-- The rating interpretation rule in the words of the spec: first number
by regex, then the scale bounds with defaults 1 and 10. -/
def interpretRatingClaim (q : Question) (s : List Char) : Option Answer :=
  match findNumberToken s with
  | some tok =>
    let v := ratOfToken tok
    if q.scaleMin.getD 1 ≤ v ∧ v ≤ q.scaleMax.getD 10 then some (.numAns v s) else none
  | none => none

/-- The generic numeric interpretation rule in the words of the spec:
first number by regex, then the optional min_value and max_value bounds. -/
def interpretNumericClaim (q : Question) (s : List Char) : Option Answer :=
  match findNumberToken s with
  | some tok =>
    let v := ratOfToken tok
    match q.minValue with
    | some lo =>
      if v < lo then none
      else
        match q.maxValue with
        | some hi => if v > hi then none else some (.numAns v s)
        | none => some (.numAns v s)
    | none =>
      match q.maxValue with
      | some hi => if v > hi then none else some (.numAns v s)
      | none => some (.numAns v s)
  | none => none

/-- The scale interpretation rule in the words of the original claim
(regex extraction of the first number, bounds defaulting to 1 and 5),
which the code contradicts. -/
def interpretScaleClaim (q : Question) (s : List Char) : Option Answer :=
  match findNumberToken s with
  | some tok =>
    let v := ratOfToken tok
    if q.scaleMin.getD 1 ≤ v ∧ v ≤ q.scaleMax.getD 5 then some (.numAns v s) else none
  | none => none

/-- The scale interpretation rule as the code implements it: float() on
the whole stripped input, then the bounds defaulting to 1 and 5. -/
def interpretScaleAmended (q : Question) (s : List Char) : Option Answer :=
  match parsePyFloat (pyStrip s) with
  | some v =>
    if q.scaleMin.getD 1 ≤ v ∧ v ≤ q.scaleMax.getD 5 then some (.numAns v s) else none
  | none => none

/-- Boolean test that an outcome is not a usable task result (it threw or
was replaced by the timeout placeholder). -/
def isTaskFailure : TaskOutcome → Bool
  | .ok _ _ _ => false
  | _ => true

/-- Numeric question with the branching table of the branch-correctness
scenario: condition 1-2 jumps to qX and condition 4-5 to qY. -/
def c1NumericQ : Question :=
  { qid := ("q1").data, questionTypeKey := some (("numeric").data),
    followUpLogic := [(("1-2").data, ("qX").data), (("4-5").data, ("qY").data)] }

/-- A survey whose first question declares follow-up logic pointing at the
question qX sitting at index 3. -/
def c1Questions : List Question :=
  [c1NumericQ,
   { qid := ("q2").data, questionTypeKey := some (("text").data) },
   { qid := ("qY").data, questionTypeKey := some (("text").data) },
   { qid := ("qX").data, questionTypeKey := some (("text").data) }]

/-- A compressor whose summary exceeds the remaining allowance (500
characters, 125 estimated tokens): nothing in _optimize_for_tokens checks
the size of what _compress_document returns. -/
def c3OverflowCompress : List Char → Nat → Option (List Char) :=
  fun _ _ => some (List.replicate 500 'x')

/-- One ranked hit of 500 characters (125 estimated tokens). -/
def c3Docs : List RagDoc := [{ content := List.replicate 500 'a' }]

/-- A rating question with the default 1 to 10 scale. -/
def c4RatingQ : Question :=
  { qid := ("rt1").data, questionTypeKey := some (("rating").data) }

/-- A scale question with the default 1 to 5 scale. -/
def c4ScaleQ : Question :=
  { qid := ("sc1").data, questionTypeKey := some (("scale").data) }

/-- The rating scenario input with an embedded number. -/
def iSayAbout8 : List Char :=
  ['I', '\'', 'd', ' ', 's', 'a', 'y', ' ', 'a', 'b', 'o', 'u', 't', ' ', '8']

/-- A processed, owner-scoped document with a vector collection. -/
def c5Doc : DocRecord :=
  { objectId := ("aaaaaaaaaaaaaaaaaaaaaaaa").data, name := ("Handbook").data,
    ownerId := ("user1").data, status := ("processed").data }

/-- A well-formed ObjectId matching no document in the collection. -/
def c5MissingId : List Char := ("bbbbbbbbbbbbbbbbbbbbbbbb").data

/-- A vector search that would find a hit in any searched document. -/
def c5Search : List DocRecord → List RagDoc :=
  fun _ => [{ content := ("knowledge text").data, documentName := ("Handbook").data }]

/-- A yes_no question used for the invalid-input scenario. -/
def c8Question : Question :=
  { qid := ("b1").data, questionTypeKey := some (("yes_no").data) }

/-- The multiple-choice scenario question with options Good and Bad. -/
def c9Question : Question :=
  { qid := ("m1").data, questionTypeKey := some (("multiple_choice").data),
    options := [("Good").data, ("Bad").data] }

/-- A two-question survey without branching for the progression scenario. -/
def c7Questions : List Question :=
  [{ qid := ("a1").data, questionTypeKey := some (("yes_no").data) },
   { qid := ("a2").data, questionTypeKey := some (("rating").data) }]

/-- Valid answers for the two questions of c7Questions. -/
def c7Texts : List (List Char) := [("yes").data, ("7").data]

/-- The single-step behaviour of the webhook handler on a valid answer,
shared by the progression and branching proofs. -/
theorem handleStep_valid (questions : List Question) (st : SessionState)
    (t0 t1 : Nat) (text : List Char) (q : Question) (a : Answer)
    (hq : questions[st.currentQuestionIndex]? = some q)
    (ha : processSurveyAnswer q (pyStrip text) = some a) :
    handleSurveyResponseStep questions st t0 t1 text =
      if st.currentQuestionIndex + 1 ≥ questions.length then
        ({ st with responses := assocPut st.responses q.qid a, completed := true,
                   endTime := some t1, durationSeconds := some (t1 - t0) },
         .completedOutro)
      else
        ({ st with responses := assocPut st.responses q.qid a,
                   currentQuestionIndex := st.currentQuestionIndex + 1 },
         .nextQuestion (st.currentQuestionIndex + 1)) := by
  unfold handleSurveyResponseStep
  rw [hq]
  simp only [ha]

/-- C10: when the token-usage ledger aggregation raises, check_budget
returns within_budget true for every budget and every estimated token
count — the guard fails open — while the successful-read path denies any
estimate above the per-request limit. -/
theorem C10_budget_guard_fails_open :
    (∀ (budget : TokenBudget) (errorMessage : List Char) (estimatedTokens : Nat),
      (checkBudget budget (Except.error errorMessage) estimatedTokens).withinBudget = true) ∧
    (∀ (budget : TokenBudget) (daily monthly estimatedTokens : Nat),
      budget.perRequestLimit < estimatedTokens →
      (checkBudget budget (Except.ok (daily, monthly)) estimatedTokens).withinBudget = false) := by
  constructor
  · intro b e t
    rfl
  · intro b d m t h
    simp [checkBudget]
    omega

/-- Closed instance of C10: a failed ledger read approves an estimate that
exceeds the default per-request limit, which a successful read denies. -/
theorem C10_budget_guard_fails_open_witness :
    (checkBudget {} (Except.error (("db down").data)) 999999).withinBudget = true ∧
    (checkBudget {} (Except.ok (0, 0)) 999999).withinBudget = false :=
  ⟨C10_budget_guard_fails_open.1 {} (("db down").data) 999999,
   C10_budget_guard_fails_open.2 {} 0 0 999999 (by decide)⟩

/-- C8: an inbound response the interpreter rejects leaves the session
document exactly as it was — same question pointer, same responses map —
and the only effect is the help message for the current question. -/
theorem C8_invalid_input_no_state_change :
    ∀ (questions : List Question) (st : SessionState) (startTime now : Nat)
      (text : List Char) (q : Question),
      questions[st.currentQuestionIndex]? = some q →
      processSurveyAnswer q (pyStrip text) = none →
      handleSurveyResponseStep questions st startTime now text = (st, .invalidHelp) := by
  intro qs st t0 t1 text q hq hp
  unfold handleSurveyResponseStep
  rw [hq]
  simp only [hp]

/-- Closed instance of C8: the answer maybe to a yes_no question is
rejected and the session is untouched. -/
theorem C8_invalid_input_no_state_change_witness :
    handleSurveyResponseStep [c8Question] initialSession 0 5 (("maybe").data)
      = (initialSession, .invalidHelp) :=
  C8_invalid_input_no_state_change [c8Question] initialSession 0 5
    (("maybe").data) c8Question rfl rfl

/-- C9: for multiple_choice questions the interpreter is exactly the
claimed rule — 1-based index first, then first case-insensitive
bidirectional substring match, else Invalid — and on options Good and Bad
the inputs 1, bad service and 3 give choice 0, choice 1 and Invalid. -/
theorem C9_multiple_choice_interpretation :
    (∀ (q : Question) (s : List Char),
      questionTypeOf q = ("multiple_choice").data →
      processSurveyAnswer q s = interpretMultipleChoiceClaim q.options s) ∧
    processSurveyAnswer c9Question (("1").data)
      = some (.choice 0 (("Good").data) (("1").data)) ∧
    processSurveyAnswer c9Question (("bad service").data)
      = some (.choice 1 (("Bad").data) (("bad service").data)) ∧
    processSurveyAnswer c9Question (("3").data) = none := by
  refine ⟨?_, by decide, by decide, by decide⟩
  intro q s h
  unfold processSurveyAnswer interpretMultipleChoiceClaim
  rw [h]
  rfl

/-- Closed instance of C9's general rule at the input 2. -/
theorem C9_multiple_choice_interpretation_witness :
    processSurveyAnswer c9Question (("2").data)
      = interpretMultipleChoiceClaim c9Question.options (("2").data) :=
  C9_multiple_choice_interpretation.1 c9Question (("2").data) rfl

/-- C6: a text the question-likeness heuristic accepts is routed to the
knowledge path whenever the contact has a knowledge-base call at most 30
minutes old, whatever survey session exists; with no knowledge-base call
on record the same text is routed to the survey path, bound to the active
session's current question index. -/
theorem C6_disambiguation_stability :
    (∀ (ageMinutes : Nat) (text : List Char) (session : Option (Nat × Nat)),
      ageMinutes ≤ 30 → looksLikeQuestion text = true →
      classifyInbound (some ageMinutes) text session = .knowledgeQuery) ∧
    (∀ (text : List Char) (questionIndex sessionAgeMinutes : Nat),
      classifyInbound none text (some (questionIndex, sessionAgeMinutes))
        = .surveyAnswer questionIndex) := by
  constructor
  · intro a text sess ha hq
    have h30 : decide (a ≤ 30) = true := decide_eq_true ha
    have h24 : decide (a ≤ 1440) = true := decide_eq_true (by omega)
    simp [classifyInbound, hq, h30, h24]
  · intro text idx age
    simp [classifyInbound]

/-- Closed instance of C6: the same question-mark message goes to the
knowledge path with a 10-minute-old knowledge-base call and to the survey
path (question 2) without one. -/
theorem C6_disambiguation_stability_witness :
    classifyInbound (some 10) (("Is my order ready?").data) (some (2, 15))
      = .knowledgeQuery ∧
    classifyInbound none (("Is my order ready?").data) (some (2, 15))
      = .surveyAnswer 2 :=
  ⟨C6_disambiguation_stability.1 10 (("Is my order ready?").data) (some (2, 15))
     (by decide) (by decide),
   C6_disambiguation_stability.2 (("Is my order ready?").data) 2 15⟩

/-- The result loop ignores outcomes that are not usable task results. -/
theorem collectScoresAux_all_failures :
    ∀ (outcomes : List TaskOutcome) (acc : List (List Char × Rat)),
      outcomes.all isTaskFailure = true → collectScoresAux acc outcomes = acc := by
  intro outcomes
  induction outcomes with
  | nil => intro acc _; rfl
  | cons o rest ih =>
    intro acc h
    rw [List.all_cons, Bool.and_eq_true] at h
    cases o with
    | thrown m => exact ih acc h.2
    | timedOut => exact ih acc h.2
    | ok qid success score => simp [isTaskFailure] at h

/-- C2 counterexample: when every per-answer scoring task throws, the
normal completion path of analyze_sentiment_background runs — it persists
a neutral overall sentiment and clears the pending flag, but it does not
set sentiment_analysis_failed, contradicting the claim. -/
theorem C2_counterexample :
    (analyzeSentimentOutcomes
      [.thrown (("llm timeout").data), .thrown (("llm refused").data)]).overallSentiment
      = 0 ∧
    (analyzeSentimentOutcomes
      [.thrown (("llm timeout").data), .thrown (("llm refused").data)]).analysisPending
      = false ∧
    ¬((analyzeSentimentOutcomes
      [.thrown (("llm timeout").data), .thrown (("llm refused").data)]).failedFlag
      = true) := by
  refine ⟨rfl, rfl, ?_⟩
  decide

/-- C2 amended: when every per-answer task throws or times out, the
background pipeline persists overall_sentiment 0.0 and clears the pending
flag, but leaves sentiment_analysis_failed unset; that flag is written
only by the crash path, reached when the pipeline itself raises. -/
theorem C2_sentiment_all_failures_amended :
    (∀ outcomes : List TaskOutcome,
      outcomes.all isTaskFailure = true →
      analyzeSentimentOutcomes outcomes =
        { sentimentScores := some [], overallSentiment := 0,
          analysisPending := false, failedFlag := false }) ∧
    sentimentCrashUpdate =
      { sentimentScores := none, overallSentiment := 0,
        analysisPending := false, failedFlag := true } := by
  refine ⟨?_, rfl⟩
  intro outcomes h
  unfold analyzeSentimentOutcomes
  rw [collectScoresAux_all_failures outcomes [] h]
  rfl

/-- Closed instance of C2 amended: one thrown task and one timed-out task
yield the neutral pending-cleared update without the failed flag. -/
theorem C2_sentiment_all_failures_amended_witness :
    analyzeSentimentOutcomes [.thrown (("boom").data), .timedOut] =
      { sentimentScores := some [], overallSentiment := 0,
        analysisPending := false, failedFlag := false } :=
  C2_sentiment_all_failures_amended.1 [.thrown (("boom").data), .timedOut] rfl

set_option maxRecDepth 4000 in
/-- C3 counterexample: a compressor answer larger than the remaining
allowance is packed unchecked, so the packed hits of the retrieval result
exceed the requested budget of 120 tokens. -/
theorem C3_counterexample :
    packedTokens (optimizeForTokens c3OverflowCompress c3Docs 120) = 125 ∧
    ¬(packedTokens (optimizeForTokens c3OverflowCompress c3Docs 120) ≤ 120) := by
  constructor
  · decide
  · decide

/-- The packing loop keeps the budget as long as every compression result
fits the allowance it was asked for. -/
theorem optimizeForTokensAux_budget
    (compress : List Char → Nat → Option (List Char)) (maxTokens : Nat)
    (H : ∀ content target result,
      compress content target = some result → countTokens result ≤ target) :
    ∀ (docs : List RagDoc) (currentTokens : Nat), currentTokens ≤ maxTokens →
      currentTokens + packedTokens (optimizeForTokensAux compress maxTokens docs currentTokens)
        ≤ maxTokens := by
  intro docs
  induction docs with
  | nil =>
    intro cur h
    simpa [optimizeForTokensAux, packedTokens] using h
  | cons d rest ih =>
    intro cur hcur
    unfold optimizeForTokensAux
    by_cases h1 : cur + countTokens d.content ≤ maxTokens
    · rw [if_pos h1]
      have hrec := ih (cur + countTokens d.content) h1
      simp only [packedTokens, List.map_cons, List.sum_cons] at hrec ⊢
      omega
    · rw [if_neg h1]
      by_cases h2 : maxTokens - cur > 100
      · rw [if_pos h2]
        cases hc : compress d.content (maxTokens - cur) with
        | none => simp [packedTokens]; omega
        | some c =>
          have hfit := H d.content (maxTokens - cur) c hc
          simp only [packedTokens, List.map_cons, List.map_nil, List.sum_cons,
            List.sum_nil]
          omega
      · rw [if_neg h2]
        simp [packedTokens]
        omega

/-- C3 amended: the packed hits stay within max_tokens on every invocation
in which compression is absent or respects its target allowance; the code
itself never re-checks the compressed size, which is what the
counterexample exploits. -/
theorem C3_token_budget_amended :
    ∀ (compress : List Char → Nat → Option (List Char)) (docs : List RagDoc)
      (maxTokens : Nat),
      (∀ content target result,
        compress content target = some result → countTokens result ≤ target) →
      packedTokens (optimizeForTokens compress docs maxTokens) ≤ maxTokens := by
  intro compress docs maxTokens H
  have h := optimizeForTokensAux_budget compress maxTokens H docs 0 (Nat.zero_le _)
  simpa [optimizeForTokens] using h

/-- Closed instance of C3 amended: with a compressor that always fails
(returns none), the overflowing hit is dropped and the budget holds. -/
theorem C3_token_budget_amended_witness :
    packedTokens (optimizeForTokens (fun _ _ => none) c3Docs 120) ≤ 120 :=
  C3_token_budget_amended (fun _ _ => none) c3Docs 120
    (fun _ _ _ hc => nomatch hc)

/-- C5 counterexample: with one eligible processed document on record and
a knowledge_base_id that matches no document, the filtered query is empty
and retrieval returns the empty result — even though eligible documents
exist and the vector search would produce a hit — instead of falling back
to all eligible documents. -/
theorem C5_counterexample :
    getFilteredDocuments [c5Doc] (("user1").data) (some c5MissingId) = [] ∧
    [c5Doc].filter (eligibleDoc (("user1").data)) = [c5Doc] ∧
    retrieveOptimizedContext c5Search (fun _ _ => none) [c5Doc] (("user1").data)
      (some c5MissingId) (("refund policy").data) 1000 = emptyRetrievalResult := by
  refine ⟨by decide, by decide, by decide⟩

/-- C5 amended: when the query narrowed by a specific knowledge_base_id
matches no document, retrieval returns the empty-content result; no
fallback to the owner's eligible documents happens. -/
theorem C5_no_fallback_amended :
    ∀ (searchHits : List DocRecord → List RagDoc)
      (compress : List Char → Nat → Option (List Char))
      (db : List DocRecord) (userId knowledgeBaseId query : List Char)
      (maxTokens : Nat),
      getFilteredDocuments db userId (some knowledgeBaseId) = [] →
      retrieveOptimizedContext searchHits compress db userId
        (some knowledgeBaseId) query maxTokens = emptyRetrievalResult := by
  intro s c db u k q m h
  unfold retrieveOptimizedContext
  rw [h]
  rfl

/-- Closed instance of C5 amended, through the name-match branch: a
knowledge_base_id that is not a valid ObjectId is tried as a document
name, misses, and retrieval is empty. -/
theorem C5_no_fallback_amended_witness :
    retrieveOptimizedContext c5Search (fun _ _ => none) [c5Doc] (("user1").data)
      (some (("Missing Handbook").data)) (("refund policy").data) 1000
      = emptyRetrievalResult :=
  C5_no_fallback_amended c5Search (fun _ _ => none) [c5Doc] (("user1").data)
    (("Missing Handbook").data) (("refund policy").data) 1000 (by decide)

/-- C4 counterexample: for a scale question the code parses the whole
stripped input with float() instead of extracting the first number by
regex, so the input about 3 — which the claimed rule accepts with value 3
inside the default 1 to 5 range — is Invalid. -/
theorem C4_counterexample :
    processSurveyAnswer c4ScaleQ (("about 3").data) = none ∧
    interpretScaleClaim c4ScaleQ (("about 3").data)
      = some (.numAns ((3 : Int) : Rat) (("about 3").data)) := by
  refine ⟨by decide, by decide⟩

/-- C4 amended: numeric and rating questions extract the first signed
decimal number by regex and apply their bounds (defaults 1 to 10 for
rating, the optional min_value and max_value for numeric), exactly as
claimed; scale questions instead parse the entire stripped input as one
decimal number and apply bounds defaulting to 1 to 5.  On the default
rating scale, 11 is Invalid and an embedded 8 is extracted. -/
theorem C4_numeric_interpretation_amended :
    (∀ (q : Question) (s : List Char),
      questionTypeOf q = ("rating").data →
      processSurveyAnswer q s = interpretRatingClaim q s) ∧
    (∀ (q : Question) (s : List Char),
      questionTypeOf q = ("numeric").data ∨ questionTypeOf q = ("number").data →
      processSurveyAnswer q s = interpretNumericClaim q s) ∧
    (∀ (q : Question) (s : List Char),
      questionTypeOf q = ("scale").data →
      processSurveyAnswer q s = interpretScaleAmended q s) ∧
    processSurveyAnswer c4RatingQ (("11").data) = none ∧
    processSurveyAnswer c4RatingQ iSayAbout8
      = some (.numAns ((8 : Int) : Rat) iSayAbout8) := by
  refine ⟨?_, ?_, ?_, by decide, by decide⟩
  · intro q s h
    unfold processSurveyAnswer interpretRatingClaim
    rw [h]
    rfl
  · intro q s h
    rcases h with h | h
    · unfold processSurveyAnswer interpretNumericClaim
      rw [h]
      rfl
    · unfold processSurveyAnswer interpretNumericClaim
      rw [h]
      rfl
  · intro q s h
    unfold processSurveyAnswer interpretScaleAmended
    rw [h]
    rfl

/-- Closed instance of C4 amended: the rating rule at input 7 and the
scale rule at input 3. -/
theorem C4_numeric_interpretation_amended_witness :
    processSurveyAnswer c4RatingQ (("7").data)
      = interpretRatingClaim c4RatingQ (("7").data) ∧
    processSurveyAnswer c4ScaleQ (("3").data)
      = interpretScaleAmended c4ScaleQ (("3").data) :=
  ⟨C4_numeric_interpretation_amended.1 c4RatingQ (("7").data) rfl,
   C4_numeric_interpretation_amended.2.2.1 c4ScaleQ (("3").data) rfl⟩

/-- C1 counterexample: an answer of 1 to the numeric question whose
follow_up_logic routes condition 1-2 to the question qX at index 3 — and
whose condition the orchestrator resolves to 1-2 — still advances the
session to index 1, the default next question: no jump happens. -/
theorem C1_counterexample :
    analyzeResponseCondition (("numeric").data) [] none (("1").data)
      = some (("1-2").data) ∧
    assocGet c1NumericQ.followUpLogic (("1-2").data) = some (("qX").data) ∧
    (c1Questions.findIdx (fun q => decide (q.qid = ("qX").data))) = 3 ∧
    (handleSurveyResponseStep c1Questions initialSession 0 0 (("1").data)).1.currentQuestionIndex
      = 1 ∧
    (handleSurveyResponseStep c1Questions initialSession 0 0 (("1").data)).2
      = .nextQuestion 1 ∧
    (1 : Nat) ≠ 3 := by
  refine ⟨by decide, by decide, by decide, by decide, by decide, by decide⟩

/-- C1 amended: the orchestrator resolves the branching condition from a
numeric answer (1-2 for values at most 2, 3 for 3, 4-5 above 3), but
follow_up_logic never overrides the transition: the webhook advances every
valid answer to index + 1, whatever follow-up table the current question
declares. -/
theorem C1_branching_amended :
    (∀ (questions : List Question) (st : SessionState) (startTime now : Nat)
       (text : List Char) (q : Question) (a : Answer),
      questions[st.currentQuestionIndex]? = some q →
      processSurveyAnswer q (pyStrip text) = some a →
      st.currentQuestionIndex + 1 < questions.length →
      (handleSurveyResponseStep questions st startTime now text).1.currentQuestionIndex
          = st.currentQuestionIndex + 1 ∧
        (handleSurveyResponseStep questions st startTime now text).2
          = .nextQuestion (st.currentQuestionIndex + 1)) ∧
    (∀ (options : List (List Char)) (sel : Option (List Char)) (text : List Char)
       (r : Int),
      parsePyInt (pyStrip text) = some r → r ≤ 2 →
      analyzeResponseCondition (("numeric").data) options sel text
        = some (("1-2").data)) ∧
    (∀ (options : List (List Char)) (sel : Option (List Char)) (text : List Char),
      parsePyInt (pyStrip text) = some 3 →
      analyzeResponseCondition (("numeric").data) options sel text
        = some (("3").data)) ∧
    (∀ (options : List (List Char)) (sel : Option (List Char)) (text : List Char)
       (r : Int),
      parsePyInt (pyStrip text) = some r → 3 < r →
      analyzeResponseCondition (("numeric").data) options sel text
        = some (("4-5").data)) := by
  refine ⟨?_, ?_, ?_, ?_⟩
  · intro qs st t0 t1 text q a hq ha hlt
    have hstep := handleStep_valid qs st t0 t1 text q a hq ha
    rw [hstep, if_neg (by omega)]
    exact ⟨rfl, rfl⟩
  · intro opts sel text r hp hr
    simp [analyzeResponseCondition, hp, if_pos hr]
  · intro opts sel text hp
    simp [analyzeResponseCondition, hp]
  · intro opts sel text r hp hr
    have h2 : ¬(r ≤ 2) := by omega
    have h3 : ¬(r = 3) := by omega
    simp [analyzeResponseCondition, hp, if_neg h2, if_neg h3]

/-- Closed instance of C1 amended: the answer 2 resolves condition 1-2 and
still advances the c1 survey from question 0 to question 1. -/
theorem C1_branching_amended_witness :
    (handleSurveyResponseStep c1Questions initialSession 0 0 (("2").data)).1.currentQuestionIndex
      = 1 ∧
    analyzeResponseCondition (("numeric").data) [] none (("2").data)
      = some (("1-2").data) :=
  ⟨(C1_branching_amended.1 c1Questions initialSession 0 0 (("2").data) c1NumericQ
      (Answer.numAns ((2 : Int) : Rat) (("2").data)) rfl (by decide) (by decide)).1,
   C1_branching_amended.2.1 [] none (("2").data) 2 (by decide) (by decide)⟩

/-- Running the handler over a concatenation processes the first batch,
then the second from the resulting state. -/
theorem runAnswers_append (questions : List Question) (t0 : Nat) :
    ∀ (l1 l2 : List (List Char)) (st : SessionState),
      runAnswers questions t0 st (l1 ++ l2)
        = runAnswers questions t0 (runAnswers questions t0 st l1) l2 := by
  intro l1
  induction l1 with
  | nil => intro l2 st; rfl
  | cons t rest ih =>
    intro l2 st
    simpa [runAnswers] using ih l2 _

/-- C7: over any branch-free survey run in which every answer is accepted
by the interpreter, the question pointer after k answers is exactly k
while the survey is unfinished, and processing the final answer marks the
session completed with end_time and duration_seconds set. -/
theorem C7_monotonic_progression :
    ∀ (questions : List Question) (texts : List (List Char)) (startTime : Nat),
      texts.length = questions.length →
      ((questions.zip texts).all
        (fun p => (processSurveyAnswer p.1 (pyStrip p.2)).isSome)) = true →
      ∀ k, k ≤ questions.length →
        ((k < questions.length →
          (runAnswers questions startTime initialSession (texts.take k)).currentQuestionIndex
              = k ∧
            (runAnswers questions startTime initialSession (texts.take k)).completed
              = false) ∧
        (k = questions.length → 0 < questions.length →
          (runAnswers questions startTime initialSession (texts.take k)).completed
              = true ∧
            (runAnswers questions startTime initialSession (texts.take k)).endTime
              ≠ none ∧
            (runAnswers questions startTime initialSession (texts.take k)).durationSeconds
              ≠ none)) := by
  intro qs ts t0 hlen hall k
  induction k with
  | zero =>
    intro _
    refine ⟨fun _ => ⟨rfl, rfl⟩, fun h0 hpos => ?_⟩
    exfalso
    omega
  | succ k ih =>
    intro hk1
    have hklt : k < qs.length := by omega
    have hkt : k < ts.length := by omega
    have ihk := (ih (by omega)).1 hklt
    have hq : qs[k]? = some qs[k] := List.getElem?_eq_getElem hklt
    have hlz : k < (qs.zip ts).length := by
      rw [List.length_zip qs ts]
      omega
    have hmem : (qs[k], ts[k]) ∈ qs.zip ts := by
      have hz : (qs.zip ts)[k] = (qs[k], ts[k]) := List.getElem_zip
      rw [← hz]
      exact List.getElem_mem hlz
    have hval := List.all_eq_true.mp hall _ hmem
    obtain ⟨a, ha⟩ := Option.isSome_iff_exists.mp hval
    have htake : ts.take (k + 1) = ts.take k ++ [ts[k]] := by
      rw [List.take_succ, List.getElem?_eq_getElem hkt]
      rfl
    have hrun : runAnswers qs t0 initialSession (ts.take (k + 1))
        = (handleSurveyResponseStep qs
            (runAnswers qs t0 initialSession (ts.take k)) t0 t0 ts[k]).1 := by
      rw [htake, runAnswers_append]
      rfl
    have hq' : qs[(runAnswers qs t0 initialSession (ts.take k)).currentQuestionIndex]?
        = some qs[k] := by
      rw [ihk.1]
      exact hq
    have hstep := handleStep_valid qs (runAnswers qs t0 initialSession (ts.take k))
      t0 t0 ts[k] qs[k] a hq' ha
    constructor
    · intro hlt1
      rw [hrun, hstep, if_neg (by rw [ihk.1]; omega)]
      refine ⟨?_, ?_⟩
      · show (runAnswers qs t0 initialSession (ts.take k)).currentQuestionIndex + 1 = k + 1
        rw [ihk.1]
      · exact ihk.2
    · intro hkeq hpos
      rw [hrun, hstep, if_pos (by rw [ihk.1]; omega)]
      exact ⟨rfl, by simp, by simp⟩

/-- Closed instance of C7 on the two-question survey: after the first
accepted answer the pointer is 1, and the second answer completes the
session. -/
theorem C7_monotonic_progression_witness :
    (runAnswers c7Questions 0 initialSession (c7Texts.take 1)).currentQuestionIndex = 1 ∧
    (runAnswers c7Questions 0 initialSession (c7Texts.take 2)).completed = true := by
  have h := C7_monotonic_progression c7Questions c7Texts 0 rfl (by decide)
  exact ⟨((h 1 (by decide)).1 (by decide)).1, ((h 2 (by decide)).2 rfl (by decide)).1⟩
